import Mathlib

/-!
Verification of the contract-info subsystem of cargo-contract
(`crates/cargo-contract/src/cmd/info.rs`): the connect/fetch/render
pipeline of `InfoCommand`.

The source is shallowly embedded: network effects are passed in as
explicit outcomes (`Except` values), the output stream is a list of
emitted lines, and machine integers are `Nat` values (the widths used
here — `u32` counts, balances, 256-bit hashes — are never overflowed by
the code, which only formats them).
-/

namespace ContractInfoCmd

/-- Lowercase hex digit for a value below 16, as produced by the
`hex` crate (`hex::encode` emits lowercase). -/
def hexDigit (n : Nat) : Char :=
  if n < 10 then Char.ofNat (48 + n) else Char.ofNat (87 + n)

/-- Worker of `hex::encode` on a byte sequence, character by character:
each byte becomes its high nibble then its low nibble. -/
def hexEncodeChars : List Nat → List Char
  | [] => []
  | b :: bs => hexDigit (b / 16) :: hexDigit (b % 16) :: hexEncodeChars bs

/-- Function `hex::encode`: lowercase hex string of a byte sequence. -/
def hexEncode (bs : List Nat) : String :=
  ⟨hexEncodeChars bs⟩

/-- Value of one hex digit character (`hex::decode` accepts both cases). -/
def hexDigitVal (c : Char) : Option Nat :=
  if 48 ≤ c.toNat ∧ c.toNat ≤ 57 then some (c.toNat - 48)
  else if 97 ≤ c.toNat ∧ c.toNat ≤ 102 then some (c.toNat - 87)
  else if 65 ≤ c.toNat ∧ c.toNat ≤ 70 then some (c.toNat - 55)
  else none

/-- Worker of `hex::decode` on a character list: pairs of digits become
bytes; an odd length or a non-hex character fails. -/
def hexDecodeChars : List Char → Option (List Nat)
  | [] => some []
  | [_] => none
  | c1 :: c2 :: rest =>
    match hexDigitVal c1, hexDigitVal c2, hexDecodeChars rest with
    | some hi, some lo, some bs => some ((hi * 16 + lo) :: bs)
    | _, _, _ => none

/-- Function `hex::decode`: bytes of a hex string. -/
def hexDecode (s : String) : Option (List Nat) :=
  hexDecodeChars s.data

/-- The decoded storage record
(`pallet_contracts::storage::ContractInfo` as used by `info.rs`:
`trie_id.0` a byte sequence, `code_hash` an `H256`, `storage_items` a
`u32`, `storage_item_deposit` a balance).  Bytes are `Nat` values below
256; the byte bound is carried as a hypothesis where it matters. -/
structure ContractInfo where
  trie_id : List Nat
  code_hash : List Nat
  storage_items : Nat
  storage_item_deposit : Nat

/-- Rust `{:?}` on an unsigned integer: decimal digits. -/
def debugUint (n : Nat) : String := toString n

/-- Rust `{:?}` on `sp_core::H256`: `0x` followed by the lowercase hex
of all 32 bytes (`impl Debug for H256` prints the full fixed hash). -/
def debugH256 (bytes : List Nat) : String :=
  "0x" ++ hexEncode bytes

/-- Modelled from the spec: the line-emission macro
`name_value_println!` is declared outside the file under review; per
§4.3 of the specification each call writes one label/value line to the
standard output stream. -/
def nameValueLine (label value : String) : String :=
  label ++ " " ++ value

/-- Method `InfoCommand::basic_display_format_contract_info`: hex-encodes the
trie id and emits the four label/value lines in source order. -/
def basic_display_format_contract_info (info : ContractInfo) : List String :=
  let convert_trie_id := hexEncode info.trie_id
  [ nameValueLine "TrieId:" convert_trie_id
  , nameValueLine "Code hash:" (debugH256 info.code_hash)
  , nameValueLine "Storage items:" (debugUint info.storage_items)
  , nameValueLine "Storage deposit:" (debugUint info.storage_item_deposit) ]

/-- A JSON document: the values `serde_json` can produce for the types
at hand (strings and unsigned numbers, gathered in an object). -/
inductive Json where
  | str (s : String) : Json
  | num (n : Nat) : Json
  | obj (fields : List (String × Json)) : Json

/-- Field names of a JSON object (empty for scalars). -/
def jsonKeys : Json → List String
  | .obj fields => fields.map Prod.fst
  | _ => []

/-- Escaping applied by the JSON string serializer (the strings emitted
here contain none of the escaped characters, but the serializer is
modelled faithfully for quote, backslash and newline). -/
def jsonEscapeChar (c : Char) : List Char :=
  if c = Char.ofNat 34 then [Char.ofNat 92, Char.ofNat 34]
  else if c = Char.ofNat 92 then [Char.ofNat 92, Char.ofNat 92]
  else if c = Char.ofNat 10 then [Char.ofNat 92, Char.ofNat 110]
  else [c]

/-- A JSON string literal: quoted, escaped. -/
def jsonStringLit (s : String) : String :=
  "\"" ++ ⟨s.data.foldr (fun c acc => jsonEscapeChar c ++ acc) []⟩ ++ "\""

/-- Scalar rendering used inside the pretty printer. -/
def jsonScalar : Json → String
  | .str s => jsonStringLit s
  | .num n => toString n
  | .obj _ => ""

/-- One pretty-printed field line, at the two-space indent
`serde_json::to_string_pretty` uses. -/
def jsonFieldLine (f : String × Json) : String :=
  "  " ++ jsonStringLit f.1 ++ ": " ++ jsonScalar f.2

/-- Function `serde_json::to_string_pretty` on a flat object (the only
shape serialized here): braces on their own lines, fields indented two
spaces, separated by commas. -/
def jsonPretty : Json → String
  | .obj fields => "\x7b\n" ++ String.intercalate ",\n" (fields.map jsonFieldLine) ++ "\n\x7d"
  | v => jsonScalar v

/-- The serialization-only projection `InfoToJson` of `info.rs`:
`trie_id` an already-hex-encoded string, `code_hash` the `H256`,
`storage_items` the `u32`; no deposit field. -/
structure InfoToJson where
  trie_id : String
  code_hash : List Nat
  storage_items : Nat

/-- Serde serialization of `sp_core::H256`: the `0x`-prefixed lowercase
hex string of the 32 bytes. -/
def h256SerdeString (bytes : List Nat) : String :=
  "0x" ++ hexEncode bytes

/-- The JSON document the derived `Serialize` of `InfoToJson` produces:
an object with the three fields in declaration order. -/
def infoToJsonValue (i : InfoToJson) : Json :=
  .obj [ ("trie_id", .str i.trie_id)
       , ("code_hash", .str (h256SerdeString i.code_hash))
       , ("storage_items", .num i.storage_items) ]

/-- The projection built by `InfoCommand::serialize_json` from a
record: trie id hex-encoded, code hash and storage-item count copied. -/
def mkInfoToJson (info : ContractInfo) : InfoToJson :=
  let convert_trie_id := hexEncode info.trie_id
  { trie_id := convert_trie_id
  , code_hash := info.code_hash
  , storage_items := info.storage_items }

/-- Serialization of the projection as `serde_json::to_string_pretty`
performs it.  For these field types serialization always succeeds, so
the modelled serializer is total; `serialize_json` wraps its result in
`Except.ok` where the source receives `Result::Ok`. -/
def to_string_pretty (i : InfoToJson) : String :=
  jsonPretty (infoToJsonValue i)

/-- Escaping applied by Rust debug formatting on a `String` (quote,
backslash, newline; other characters pass through). -/
def debugEscapeChar (c : Char) : List Char :=
  jsonEscapeChar c

/-- Rust debug formatting on a `String`: quoted and escaped. -/
def debugStringLit (s : String) : String :=
  "\"" ++ ⟨s.data.foldr (fun c acc => debugEscapeChar c ++ acc) []⟩ ++ "\""

/-- Rust debug formatting on a `Result<String, E>` with a string-rendered
error, as applied to the `serde_json::to_string_pretty` result on line
120 of `info.rs`. -/
def debugResult : Except String String → String
  | .ok s => "Ok(" ++ debugStringLit s ++ ")"
  | .error e => "Err(" ++ debugStringLit e ++ ")"

/-- Lines 111-121 of `info.rs` generalized over the serialization
outcome: build the projection, serialize it, and emit ONE line holding
the label and the debug rendering of the whole `Result` — whatever that
result is.  The function has no error channel: it returns to `run`
unconditionally. -/
def serialize_json_with (ser : InfoToJson → Except String String)
    (info : ContractInfo) : List String :=
  let info_to_json := mkInfoToJson info
  [nameValueLine "Test output json" (debugResult (ser info_to_json))]

/-- Method `InfoCommand::serialize_json`: the emission above at the
actual serializer, which always succeeds on these field types. -/
def serialize_json (info : ContractInfo) : List String :=
  serialize_json_with (fun i => .ok (to_string_pretty i)) info

/-- The error type `ErrorVariant` of the command layer, with the origin
of each propagated failure kept apart: the `?` on `from_url`, the `?`
on the storage fetch, and the `anyhow!` absence message. -/
inductive ErrorVariant where
  | connection (msg : String) : ErrorVariant
  | fetchFailure (msg : String) : ErrorVariant
  | anyhowMsg (msg : String) : ErrorVariant

/-- The source enum `OutputType` of `info.rs`. -/
inductive OutputType where
  | HumanReadable : OutputType
  | Json : OutputType

/-- What one invocation of `InfoCommand::run` does: the lines written
to standard output, the returned `Result`, and whether the storage
fetch was ever attempted. -/
structure RunOutcome where
  output : List String
  result : Except ErrorVariant Unit
  fetch_attempted : Bool

/-- Method `InfoCommand::run`, generalized over the serialization
outcome (see `serialize_json_with`) and over the two network effects,
passed in as explicit outcomes: `connect` is what
`OnlineClient::from_url` produced, `fetchResult` what the storage fetch
produced.  The body mirrors the source: connect, fetch, then on `Some`
select `OutputType` from the flag and dispatch — the `Json` arm of the
`matches!` calls `basic_display_format_contract_info` and the other arm
calls `serialize_json`, exactly as written in the source. -/
def run_with_ser (ser : InfoToJson → Except String String)
    (output_json : Bool) (contract : String)
    (connect : Except String Unit)
    (fetchResult : Except String (Option ContractInfo)) : RunOutcome :=
  match connect with
  | .error e => ⟨[], .error (.connection e), false⟩
  | .ok _ =>
    match fetchResult with
    | .error e => ⟨[], .error (.fetchFailure e), true⟩
    | .ok (some info_result) =>
      let output_type := match output_json with
        | true => OutputType.Json
        | false => OutputType.HumanReadable
      let lines := match output_type with
        | OutputType.Json => basic_display_format_contract_info info_result
        | OutputType.HumanReadable => serialize_json_with ser info_result
      ⟨lines, .ok (), true⟩
    | .ok none =>
      ⟨[], .error (.anyhowMsg
        ("No contract information was found for account id " ++ contract)), true⟩

/-- Method `InfoCommand::run` at the actual serializer. -/
def run (output_json : Bool) (contract : String)
    (connect : Except String Unit)
    (fetchResult : Except String (Option ContractInfo)) : RunOutcome :=
  run_with_ser (fun i => .ok (to_string_pretty i)) output_json contract
    connect fetchResult

/-- One storage read as issued by `fetch_contract_info`: the block the
read was pinned to (`at(None)` passes no pin) and the account key. -/
structure StorageQuery where
  at_block : Option (List Nat)
  account : String
deriving DecidableEq

/-- Method `InfoCommand::fetch_contract_info`, with the chain client
passed in as a function from pin and account key to outcome: the source
builds the `contract_info_of` key for the account, reads storage
`at(None)` — the latest state, no pin — exactly once, and returns the
fetched optional record unchanged.  The list records every read issued. -/
def fetch_contract_info
    (storage : Option (List Nat) → String → Except String (Option ContractInfo))
    (contract : String) :
    Except String (Option ContractInfo) × List StorageQuery :=
  (storage none contract, [⟨none, contract⟩])

/-- A concrete record used as evaluation input: the record of Scenario
A of the specification (trie id bytes `[0xAB, 0xCD]`, three storage
items), with an all-zero code hash and a deposit of 7. -/
def sampleRecord : ContractInfo :=
  { trie_id := [171, 205]
  , code_hash := List.replicate 32 0
  , storage_items := 3
  , storage_item_deposit := 7 }

/-- A chain-client stub whose storage read always finds no record. -/
def emptyStorage : Option (List Nat) → String → Except String (Option ContractInfo) :=
  fun _ _ => .ok none

/-- Spec-side notion, following the claim wording about valid JSON and
not taken from the source: the characters a JSON value may begin with —
an object or array opener, a string quote, a minus sign or digit, or
the first letter of `true`, `false` or `null`. -/
def jsonStartChar (c : Char) : Bool :=
  c.toNat = 123 || c.toNat = 91 || c.toNat = 34 || c.toNat = 45
    || (48 ≤ c.toNat && c.toNat ≤ 57)
    || c.toNat = 116 || c.toNat = 102 || c.toNat = 110

/-- Spec-side notion: JSON insignificant whitespace (space, tab, line
feed, carriage return). -/
def jsonWhitespace (c : Char) : Bool :=
  c.toNat = 32 || c.toNat = 9 || c.toNat = 10 || c.toNat = 13

/-- Spec-side necessary condition for a text to be a valid JSON
document: after leading whitespace it must begin with one of the
characters of `jsonStartChar`.  A text failing this check is not valid
JSON; the check is deliberately only necessary, which is all a
refutation needs. -/
def jsonDocCouldStart (s : String) : Bool :=
  match s.data.dropWhile jsonWhitespace with
  | [] => false
  | c :: _ => jsonStartChar c

/-- Helper: decoding a hex digit produced by `hexDigit` gives the value
back, for every nibble. -/
theorem hexDigitVal_hexDigit : ∀ n < 16, hexDigitVal (hexDigit n) = some n := by
  decide

/-- Helper: decoding inverts encoding on any byte list. -/
theorem hexDecodeChars_hexEncodeChars (bs : List Nat)
    (h : ∀ b ∈ bs, b < 256) :
    hexDecodeChars (hexEncodeChars bs) = some bs := by
  induction bs with
  | nil => rfl
  | cons b bs ih =>
    have hb : b < 256 := h b (List.mem_cons_self b bs)
    have h1 : b / 16 < 16 := by omega
    have h2 : b % 16 < 16 := Nat.mod_lt _ (by decide)
    have hrest := ih (fun x hx => h x (List.mem_cons_of_mem b hx))
    simp only [hexEncodeChars, hexDecodeChars,
      hexDigitVal_hexDigit _ h1, hexDigitVal_hexDigit _ h2, hrest]
    have hb2 : b / 16 * 16 + b % 16 = b := by omega
    rw [hb2]

/-- Claim C1, divergence witness at the failing input: with a fetched
record present, the `output-json` flag set makes `run` emit the
human-readable label/value lines, and the flag absent makes it emit the
JSON serialization line — the renderer invocations are swapped relative
to the selected `OutputType`, so the claim that each mode invokes its
matching rendering path fails on the code. -/
theorem run_json_flag_invokes_human_renderer :
    (run true "5GAddr" (.ok ()) (.ok (some sampleRecord))).output
      = basic_display_format_contract_info sampleRecord
    ∧ (run false "5GAddr" (.ok ()) (.ok (some sampleRecord))).output
      = serialize_json sampleRecord :=
  ⟨rfl, rfl⟩

/-- Claim C2 counterexample: on a concrete record the output actually
emitted by `serialize_json` is the single line starting with the label
`Test output json` followed by the debug rendering of the whole
`Result` — a text that fails the necessary start-character condition
for a valid JSON document, so the claim that the rendering path
produces valid JSON output is false of the program. -/
theorem serialize_json_output_not_valid_json :
    serialize_json sampleRecord
      = [nameValueLine "Test output json"
          ("Ok(" ++ debugStringLit (to_string_pretty (mkInfoToJson sampleRecord)) ++ ")")]
    ∧ jsonDocCouldStart
        (nameValueLine "Test output json"
          ("Ok(" ++ debugStringLit (to_string_pretty (mkInfoToJson sampleRecord)) ++ ")"))
      = false :=
  ⟨rfl, rfl⟩

/-- Claim C2 as amended: the JSON rendering path emits one line — the
label `Test output json` followed by the debug rendering of the `Ok`
result wrapping the pretty-printed document; that line is not itself
valid JSON, but the wrapped document is the rendering of a JSON object
(it passes the start condition) whose keys are exactly `trie_id`,
`code_hash` and `storage_items` in that order, with `trie_id` the hex
encoding of the trie-id bytes and no storage-deposit key. -/
theorem serialize_json_line_and_fields (info : ContractInfo) :
    serialize_json info
      = [nameValueLine "Test output json"
          ("Ok(" ++ debugStringLit (to_string_pretty (mkInfoToJson info)) ++ ")")]
    ∧ to_string_pretty (mkInfoToJson info)
      = jsonPretty (infoToJsonValue (mkInfoToJson info))
    ∧ jsonDocCouldStart (to_string_pretty (mkInfoToJson info)) = true
    ∧ jsonKeys (infoToJsonValue (mkInfoToJson info))
      = ["trie_id", "code_hash", "storage_items"]
    ∧ (mkInfoToJson info).trie_id = hexEncode info.trie_id
    ∧ "storage_deposit" ∉ jsonKeys (infoToJsonValue (mkInfoToJson info)) := by
  refine ⟨rfl, rfl, rfl, rfl, rfl, ?_⟩
  show "storage_deposit" ∉ ["trie_id", "code_hash", "storage_items"]
  decide

/-- Claim C3 counterexample: with a serialization outcome that is an
error, the invocation still returns success and a line holding the
debug rendering of that error is written to the output stream — the
error is swallowed, not surfaced, contradicting the claim that a
serialization failure is reported to the caller with nothing written. -/
theorem serialization_error_swallowed :
    (run_with_ser (fun _ => .error "boom") false "5GAddr" (.ok ())
        (.ok (some sampleRecord))).result = .ok ()
    ∧ (run_with_ser (fun _ => .error "boom") false "5GAddr" (.ok ())
        (.ok (some sampleRecord))).output
      = [nameValueLine "Test output json" (debugResult (.error "boom"))] :=
  ⟨rfl, rfl⟩

/-- Claim C3 as amended: when serialization of the projection fails,
the rendering path debug-formats the failed `Result` into the single
output line and the invocation still reports success; the error is not
propagated to the caller. -/
theorem serialization_error_written_not_surfaced
    (ser : InfoToJson → Except String String) (e contract : String)
    (info : ContractInfo) (h : ser (mkInfoToJson info) = .error e) :
    (run_with_ser ser false contract (.ok ()) (.ok (some info))).result
      = .ok ()
    ∧ (run_with_ser ser false contract (.ok ()) (.ok (some info))).output
      = [nameValueLine "Test output json" ("Err(" ++ debugStringLit e ++ ")")] := by
  refine ⟨rfl, ?_⟩
  simp only [run_with_ser, serialize_json_with, h, debugResult]

/-- Witness for the amended claim C3 at a concrete failing serializer. -/
theorem serialization_error_written_not_surfaced_witness :
    (run_with_ser (fun _ => .error "boom") false "A" (.ok ())
        (.ok (some sampleRecord))).result = .ok ()
    ∧ (run_with_ser (fun _ => .error "boom") false "A" (.ok ())
        (.ok (some sampleRecord))).output
      = [nameValueLine "Test output json"
          ("Err(" ++ debugStringLit "boom" ++ ")")] :=
  serialization_error_written_not_surfaced (fun _ => .error "boom") "boom" "A"
    sampleRecord rfl

/-- Claim C4 counterexample: at address `ADDR` with a successful query
finding no record, the actual user-facing message is
`No contract information was found for account id ADDR`, which is not
the text `no contract information found for account id ADDR` the claim
quotes. -/
theorem absence_message_text_differs :
    (run false "ADDR" (.ok ()) (.ok none)).result
      = .error (.anyhowMsg "No contract information was found for account id ADDR")
    ∧ "No contract information was found for account id ADDR"
      ≠ "no contract information found for account id ADDR" :=
  ⟨rfl, by decide⟩

/-- Claim C4 as amended: when the query succeeds but finds no record,
rendering is never invoked (nothing is written), and the invocation
fails with the absence message
`No contract information was found for account id ` followed by the
queried address — never with a connection or fetch error. -/
theorem absence_reported_with_address (flag : Bool) (contract : String) :
    (run flag contract (.ok ()) (.ok none)).output = []
    ∧ (run flag contract (.ok ()) (.ok none)).result
      = .error (.anyhowMsg
          ("No contract information was found for account id " ++ contract))
    ∧ (∀ e, (run flag contract (.ok ()) (.ok none)).result
        ≠ .error (.connection e))
    ∧ (∀ e, (run flag contract (.ok ()) (.ok none)).result
        ≠ .error (.fetchFailure e)) := by
  refine ⟨rfl, rfl, fun e h => ?_, fun e h => ?_⟩ <;>
    simp [run, run_with_ser] at h

/-- Claim C5: the human-readable rendering is exactly four label/value
lines, in the fixed order trie id (hex-encoded), code hash
(debug-formatted), storage items (debug-formatted), storage deposit
(debug-formatted). -/
theorem human_readable_four_lines (info : ContractInfo) :
    basic_display_format_contract_info info
      = [ nameValueLine "TrieId:" (hexEncode info.trie_id)
        , nameValueLine "Code hash:" (debugH256 info.code_hash)
        , nameValueLine "Storage items:" (debugUint info.storage_items)
        , nameValueLine "Storage deposit:" (debugUint info.storage_item_deposit) ]
    ∧ (basic_display_format_contract_info info).length = 4 :=
  ⟨rfl, rfl⟩

/-- Claim C6: when the connection to the endpoint fails, the invocation
returns a connection error, the storage fetch is never attempted, and
no output is written — whatever the flag, the address and what a fetch
would have produced. -/
theorem connection_failure_aborts (e contract : String) (flag : Bool)
    (fetchResult : Except String (Option ContractInfo)) :
    run flag contract (.error e) fetchResult
      = ⟨[], .error (.connection e), false⟩ :=
  rfl

/-- Claim C7: decoding the hex string stored in the JSON projection
reproduces the trie-id byte sequence exactly, for every record whose
trie-id entries are bytes. -/
theorem trie_id_hex_round_trip (info : ContractInfo)
    (h : ∀ b ∈ info.trie_id, b < 256) :
    hexDecode (mkInfoToJson info).trie_id = some info.trie_id :=
  hexDecodeChars_hexEncodeChars info.trie_id h

/-- Witness for claim C7 at the Scenario A record. -/
theorem trie_id_hex_round_trip_witness :
    (∀ b ∈ sampleRecord.trie_id, b < 256)
    ∧ hexDecode (mkInfoToJson sampleRecord).trie_id = some sampleRecord.trie_id :=
  ⟨by decide, trie_id_hex_round_trip sampleRecord (by decide)⟩

/-- Claim C8: the fetch issues exactly one storage read, pinned to no
block (the latest state), returns the outcome of that read unchanged,
and in particular returns `Ok(None)` — not an error — when the read
succeeds finding nothing. -/
theorem fetch_once_latest_state
    (storage : Option (List Nat) → String → Except String (Option ContractInfo))
    (contract : String) :
    (fetch_contract_info storage contract).2 = [⟨none, contract⟩]
    ∧ ((fetch_contract_info storage contract).2).length = 1
    ∧ (fetch_contract_info storage contract).1 = storage none contract
    ∧ (storage none contract = .ok none →
        (fetch_contract_info storage contract).1 = .ok none) :=
  ⟨rfl, rfl, rfl, fun h => h⟩

/-- Witness for claim C8 at a stub client whose read finds no record. -/
theorem fetch_once_latest_state_witness :
    (fetch_contract_info emptyStorage "ADDR").2 = [⟨none, "ADDR"⟩]
    ∧ (fetch_contract_info emptyStorage "ADDR").1 = .ok none :=
  ⟨(fetch_once_latest_state emptyStorage "ADDR").1,
   (fetch_once_latest_state emptyStorage "ADDR").2.2.2 rfl⟩

/-- Claim C9: on the Scenario A record (trie id `[0xAB, 0xCD]`, three
storage items) the first human-readable line is `TrieId: abcd`. -/
theorem scenario_a_first_line :
    (basic_display_format_contract_info sampleRecord).head?
      = some "TrieId: abcd" := by
  decide

/-- Claim C10: both rendering paths hex-encode the trie id
identically — the value in the first human-readable line is exactly the
`trie_id` string stored in the JSON projection, and both equal
`hexEncode` of the record bytes. -/
theorem trie_id_consistent_across_renderings (info : ContractInfo) :
    (basic_display_format_contract_info info).head?
      = some (nameValueLine "TrieId:" (mkInfoToJson info).trie_id)
    ∧ (mkInfoToJson info).trie_id = hexEncode info.trie_id :=
  ⟨rfl, rfl⟩

end ContractInfoCmd
